import Mathlib

/-!
Shallow embedding of the Calor-E repository (src/utils/calorie_calculator.py,
src/utils/nutrition_api.py, src/utils/meal_planner.py) over exact rationals.
Python floats are modelled as rationals; Python `round(x, 2)` (round half to
even at 2 decimal places) is modelled by `round2`.
-/

/-- Python `round` tie-breaks half to even; `roundHalfEven x` is the integer
Python's `round(x)` returns on an exact decimal value `x`. -/
def roundHalfEven (x : ℚ) : ℤ :=
  let n := ⌊x⌋
  if x - n < 1/2 then n
  else if 1/2 < x - n then n + 1
  else if n % 2 = 0 then n else n + 1

/-- Python `round(x, 2)`: round to two decimal places, ties to even. -/
def round2 (x : ℚ) : ℚ := (roundHalfEven (x * 100) : ℚ) / 100

/-- Python `str.lower` on a single ASCII character. -/
def charLower (c : Char) : Char :=
  if 64 < c.toNat ∧ c.toNat < 91 then Char.ofNat (c.toNat + 32) else c

/-- Python `str.lower` (restricted to the ASCII range, which covers every
string the embedded code compares after lowering). -/
def strLower (s : String) : String := String.mk (s.data.map charLower)

/-- A Python value as passed to `calculate_daily_calories`: an int, a float or
a str (the only types the function's `isinstance` checks distinguish). -/
inductive PyVal where
  | int (n : ℤ)
  | float (q : ℚ)
  | str (s : String)

/-- Embeds `isinstance(v, (int, float))`. -/
def PyVal.isNumber : PyVal → Bool
  | .int _ => true
  | .float _ => true
  | .str _ => false

/-- Embeds `isinstance(v, int)`. -/
def PyVal.isInt : PyVal → Bool
  | .int _ => true
  | _ => false

/-- Embeds `isinstance(v, str)`. -/
def PyVal.isStr : PyVal → Bool
  | .str _ => true
  | _ => false

/-- Numeric value of a `PyVal`; only used under a passed `isNumber` check
(the `str` case is unreachable there). -/
def PyVal.toQ : PyVal → ℚ
  | .int n => n
  | .float q => q
  | .str _ => 0

/-- String value of a `PyVal`; only used under a passed `isStr` check. -/
def PyVal.toStr : PyVal → String
  | .str s => s
  | _ => ""

/-- Embeds `ACTIVITY_MULTIPLIERS` from calorie_calculator.py, an insertion-ordered
dict modelled as an association list. -/
def ACTIVITY_MULTIPLIERS : List (String × ℚ) :=
  [("sedentary", 1.2),
   ("lightly_active", 1.375),
   ("moderately_active", 1.55),
   ("very_active", 1.725),
   ("extra_active", 1.9)]

/-- Embeds `validate_inputs` from calorie_calculator.py: returns
`(is_valid, error_message)`, checking weight, height, age, gender and
activity level in that order and stopping at the first failure. -/
def validate_inputs (weight height age gender activity_level : PyVal) :
    Bool × String :=
  if ¬(weight.isNumber = true ∧ 20 ≤ weight.toQ ∧ weight.toQ ≤ 300) then
    (false, "Weight must be a number between 20 and 300 kg")
  else if ¬(height.isNumber = true ∧ 100 ≤ height.toQ ∧ height.toQ ≤ 250) then
    (false, "Height must be a number between 100 and 250 cm")
  else if ¬(age.isInt = true ∧ 15 ≤ age.toQ ∧ age.toQ ≤ 100) then
    (false, "Age must be an integer between 15 and 100 years")
  else if ¬(gender.isStr = true ∧ strLower gender.toStr ∈ ["male", "female"]) then
    (false, "Gender must be either \x27male\x27 or \x27female\x27")
  else if ¬(activity_level.isStr = true ∧
      (ACTIVITY_MULTIPLIERS.lookup (strLower activity_level.toStr)).isSome = true) then
    (false, "Activity level must be one of: sedentary, lightly_active, moderately_active, very_active, extra_active")
  else
    (true, "")

/-- Stated from the spec (§4.1, claim C6) for comparison with the code: the
error message of the first failing field, checked in the order weight,
height, age, gender, activity_level. -/
def specFirstError (w h : ℚ) (a : ℤ) (g act : String) : Option String :=
  if ¬(20 ≤ w ∧ w ≤ 300) then
    some "Weight must be a number between 20 and 300 kg"
  else if ¬(100 ≤ h ∧ h ≤ 250) then
    some "Height must be a number between 100 and 250 cm"
  else if ¬(15 ≤ a ∧ a ≤ 100) then
    some "Age must be an integer between 15 and 100 years"
  else if ¬(strLower g ∈ ["male", "female"]) then
    some "Gender must be either \x27male\x27 or \x27female\x27"
  else if ¬((ACTIVITY_MULTIPLIERS.lookup (strLower act)).isSome = true) then
    some "Activity level must be one of: sedentary, lightly_active, moderately_active, very_active, extra_active"
  else
    none

/-- The two kinds of exception `calculate_daily_calories` raises:
`TypeError` for wrong input types, `ValueError` for out-of-range values. -/
inductive CalcError where
  | typeError (msg : String)
  | valueError (msg : String)

/-- Embeds `calculate_daily_calories` from calorie_calculator.py: type checks first
(TypeError), then `validate_inputs` (ValueError), then the Mifflin-St Jeor
BMR times the activity multiplier (`.get` defaulting to 1.2), rounded to two
decimal places. -/
def calculate_daily_calories (weight height age gender activity_level : PyVal) :
    Except CalcError ℚ :=
  if ¬(weight.isNumber = true ∧ height.isNumber = true) then
    .error (.typeError "Weight and height must be numbers")
  else if ¬(age.isInt = true) then
    .error (.typeError "Age must be an integer")
  else if ¬(gender.isStr = true ∧ activity_level.isStr = true) then
    .error (.typeError "Gender and activity_level must be strings")
  else
    match validate_inputs weight height age gender activity_level with
    | (false, error_message) => .error (.valueError error_message)
    | (true, _) =>
      let bmr : ℚ :=
        if strLower gender.toStr = "male" then
          10 * weight.toQ + 6.25 * height.toQ - 5 * age.toQ + 5
        else
          10 * weight.toQ + 6.25 * height.toQ - 5 * age.toQ - 161
      let activity_multiplier :=
        ((ACTIVITY_MULTIPLIERS.lookup (strLower activity_level.toStr)).getD 1.2)
      .ok (round2 (bmr * activity_multiplier))

/-- The values of `NUTRIENT_IDS` from nutrition_api.py (the ~27 recognized
FoodData Central nutrient identifiers). -/
def NUTRIENT_ID_VALUES : List ℤ :=
  [1008, 1003, 1004, 1005, 1079, 2000, 1093, 1087, 1089, 1106, 1162, 1114,
   1158, 1185, 1175, 1178, 1177, 1090, 1095, 1092, 1051, 1018, 1057, 1253,
   1258, 1292, 1293, 1257]

/-- Embeds `UNIT_CONVERSIONS` from nutrition_api.py: grams per unit. -/
def UNIT_CONVERSIONS : List (String × ℚ) :=
  [("g", 1.0),
   ("oz", 28.35),
   ("ml", 1.0),
   ("fl_oz", 29.57)]

/-- Embeds `convert_to_grams` from nutrition_api.py: multiply by the table constant,
ValueError on an unrecognized unit (the message's joined key list written
out). -/
def convert_to_grams (amount : ℚ) (u : String) : Except String ℚ :=
  match UNIT_CONVERSIONS.lookup u with
  | none => .error ("Unsupported unit: " ++ u ++ ". Supported units are: g, oz, ml, fl_oz")
  | some c => .ok (amount * c)

/-- One entry of the raw `foodNutrients` list handed to `get_nutrition_data`:
`nutrient.nutrient.id` (absent modelled as `none`), `nutrient.nutrient.name`,
`nutrient.amount` (the code defaults a missing amount to 0) and
`nutrient.nutrient.unitName` (the code defaults it to "g"). -/
structure RawNutrient where
  nutrientId : Option ℤ
  name : String
  amount : ℚ
  unitName : String

/-- A value of the `nutrition_data` dict built by `get_nutrition_data`:
the quantity-adjusted amount and the unit name. -/
structure NutVal where
  amount : ℚ
  unitName : String

/-- The adjusted amount computed in `get_nutrition_data`:
`(amount * amount_g) / 100`. -/
def adjusted_amount (amount amount_g : ℚ) : ℚ := amount * amount_g / 100

/-- Python dict assignment `d[k] = v`: overwrite in place when the key exists,
append otherwise. -/
def dictInsert (d : List (String × NutVal)) (k : String) (v : NutVal) :
    List (String × NutVal) :=
  if d.any (fun p => p.1 == k) then
    d.map (fun p => if p.1 == k then (k, v) else p)
  else
    d ++ [(k, v)]

/-- Embeds `get_nutrition_data` from nutrition_api.py. The Python wraps the loop in
try/except and returns `(True, data)`; no statement in the loop can raise, so
the model returns the dict directly. -/
def get_nutrition_data (foodNutrients : List RawNutrient) (amount_g : ℚ) :
    List (String × NutVal) :=
  foodNutrients.foldl (fun nutrition_data n =>
    match n.nutrientId with
    | some i =>
      if i ∈ NUTRIENT_ID_VALUES then
        dictInsert nutrition_data n.name
          ⟨adjusted_amount n.amount amount_g, n.unitName⟩
      else nutrition_data
    | none => nutrition_data) []

/-- Python float division: raises ZeroDivisionError on a zero divisor. -/
def pyDiv (a b : ℚ) : Except String ℚ :=
  if b = 0 then .error "float division by zero" else .ok (a / b)

/-- The per-100g rescaling `data[\x27amount\x27] * 100 / amount_g` computed in
`create_nutrient_tables`. -/
def amount_per_100g (amount amount_g : ℚ) : Except String ℚ :=
  pyDiv (amount * 100) amount_g

/-- Embeds `main_nutrients` from `create_nutrient_tables`. -/
def MAIN_NUTRIENTS : List String :=
  ["Energy", "Protein", "Total lipid (fat)", "Carbohydrate, by difference",
   "Fiber, total dietary", "Sugars, Total", "Water"]

/-- The three macro names whose per-100g values feed the pie chart. -/
def PIE_NUTRIENTS : List String :=
  ["Protein", "Total lipid (fat)", "Carbohydrate, by difference"]

/-- A row of the main/additional nutrient tables. The Python renders the two
amounts as ".1f"-formatted display strings; the model keeps the exact
numbers. -/
structure NutRow where
  nutrientName : String
  amount : ℚ
  per100g : ℚ
  unitName : String

/-- A row of the pie-chart data. -/
structure PieRow where
  nutrientName : String
  per100g : ℚ

/-- Embeds `create_nutrient_tables` from nutrition_api.py: builds the main-nutrient
rows, the remaining-nutrient rows and the pie data, each row rescaling the
adjusted amount back to per-100g with an unguarded division by `amount_g`. -/
def create_nutrient_tables (foodNutrients : List RawNutrient) (amount_g : ℚ) :
    Except String (List NutRow × List NutRow × List PieRow) := do
  let nutrition_data := get_nutrition_data foodNutrients amount_g
  let main_data ← MAIN_NUTRIENTS.foldlM (fun acc nm =>
    match nutrition_data.lookup nm with
    | some d => do
      let p ← amount_per_100g d.amount amount_g
      pure (acc ++ [NutRow.mk nm d.amount p d.unitName])
    | none => pure acc) []
  let additional_data ← nutrition_data.foldlM (fun acc p =>
    if p.1 ∈ MAIN_NUTRIENTS then pure acc
    else do
      let q ← amount_per_100g p.2.amount amount_g
      pure (acc ++ [NutRow.mk p.1 p.2.amount q p.2.unitName])) []
  let pie_data ← PIE_NUTRIENTS.foldlM (fun acc nm =>
    match nutrition_data.lookup nm with
    | some d => do
      let q ← amount_per_100g d.amount amount_g
      pure (acc ++ [PieRow.mk nm q])
    | none => pure acc) []
  pure (main_data, additional_data, pie_data)

/-- An embedded nutrition sub-record of a meal (or the parsed fallback
values): calories, protein, fat, carbs. The code reads each key with a
default of 0, so the fields are total. -/
structure Nutrition4 where
  calories : ℚ
  protein : ℚ
  fat : ℚ
  carbs : ℚ

/-- Rounding a 4-tuple of totals to the reported `nutrition` dict shape, each
figure rounded to 2 decimals as in `_process_meal_plan`. -/
def round4 (t : ℚ × ℚ × ℚ × ℚ) : Nutrition4 :=
  ⟨round2 t.1, round2 t.2.1, round2 t.2.2.1, round2 t.2.2.2⟩

/-- One raw meal entry of the planner response, with the fields
`_process_meal_plan` reads (each via `.get` with the shown defaults).
`nutrition` is `none` when the "nutrition" key is absent or its dict is
empty (both falsy in `if not nutrition`). -/
structure Meal where
  id : ℤ
  image : String
  readyInMinutes : ℚ
  servings : ℚ
  sourceUrl : String
  nutrition : Option Nutrition4

/-- The `meal_types` dict of `_process_meal_plan`, whose insertion-ordered
keys are Breakfast, Lunch, Dinner. -/
structure MealTypes where
  breakfast : List Meal
  lunch : List Meal
  dinner : List Meal

/-- The body of `for i, meal in enumerate(meals)`: append meal i to the
bucket keyed by `list(meal_types.keys())[i % 3]`. -/
def distributeAux : ℕ → List Meal → MealTypes → MealTypes
  | _, [], mt => mt
  | i, m :: rest, mt =>
    distributeAux (i + 1) rest
      (if i % 3 = 0 then { mt with breakfast := mt.breakfast ++ [m] }
       else if i % 3 = 1 then { mt with lunch := mt.lunch ++ [m] }
       else { mt with dinner := mt.dinner ++ [m] })

/-- The meal-distribution loop of `_process_meal_plan`, starting from the
three empty buckets. -/
def distributeMeals (meals : List Meal) : MealTypes :=
  distributeAux 0 meals ⟨[], [], []⟩

/-- Embeds `IMAGE_BASE_URL` from meal_planner.py. -/
def IMAGE_BASE_URL : String := "https://spoonacular.com/recipeImages/"

/-- The nutrition-accumulation loop over one bucket in `_process_meal_plan`.
The oracle `fetch` models the network-and-parse fallback
(`get_recipe_nutrition` plus the `float(... .replace(...).strip())` parses):
`fetch id = none` models any exception there, which the `except: continue`
swallows, skipping that meal's contribution. -/
def bucketTotals (fetch : ℤ → Option Nutrition4) (type_meals : List Meal) :
    ℚ × ℚ × ℚ × ℚ :=
  type_meals.foldl (fun t meal =>
    match meal.nutrition with
    | none =>
      match fetch meal.id with
      | some nd =>
        (t.1 + nd.calories, t.2.1 + nd.protein, t.2.2.1 + nd.fat,
         t.2.2.2 + nd.carbs)
      | none => t
    | some n =>
      (t.1 + n.calories, t.2.1 + n.protein, t.2.2.1 + n.fat,
       t.2.2.2 + n.carbs)) (0, 0, 0, 0)

/-- The amount a single meal adds to its bucket's (calories, protein, fat,
carbs) totals: the embedded record when present, else the fetched fallback,
else nothing (the silent skip). -/
def mealContribution (fetch : ℤ → Option Nutrition4) (meal : Meal) :
    ℚ × ℚ × ℚ × ℚ :=
  match meal.nutrition with
  | some n => (n.calories, n.protein, n.fat, n.carbs)
  | none =>
    match fetch meal.id with
    | some nd => (nd.calories, nd.protein, nd.fat, nd.carbs)
    | none => (0, 0, 0, 0)

/-- One processed entry of the returned plan's "meals" list. -/
structure BucketEntry where
  title : String
  image : String
  readyInMinutes : ℚ
  servings : ℚ
  sourceUrl : List String
  nutrition : Nutrition4
  meals : List Meal

/-- The processed-meal dict `_process_meal_plan` appends for one non-empty
bucket: label, first member's image against the image base path, summed prep
time and servings, non-empty source URLs in order, rounded nutrition totals,
and the bucket's members. -/
def bucketEntry (fetch : ℤ → Option Nutrition4) (meal_type : String)
    (type_meals : List Meal) : BucketEntry :=
  { title := meal_type
    image := match type_meals with
      | m :: _ => IMAGE_BASE_URL ++ m.image
      | [] => ""
    readyInMinutes := (type_meals.map Meal.readyInMinutes).sum
    servings := (type_meals.map Meal.servings).sum
    sourceUrl := (type_meals.filter (fun m => m.sourceUrl != "")).map
      Meal.sourceUrl
    nutrition := round4 (bucketTotals fetch type_meals)
    meals := type_meals }

/-- The processed meal plan: the per-bucket entries and the day-level
nutrient totals. -/
structure Plan where
  meals : List BucketEntry
  nutrients : Nutrition4

/-- Embeds `_process_meal_plan` from meal_planner.py. The single Python loop
over the three labelled buckets (skip an empty bucket with `continue`; add
the bucket's raw totals to the daily accumulators; append the processed
entry) is written as a filter, a map and a fold over the same three buckets
in the same order. -/
def process_meal_plan (fetch : ℤ → Option Nutrition4) (meals : List Meal) :
    Plan :=
  let mt := distributeMeals meals
  let meal_types := [("Breakfast", mt.breakfast), ("Lunch", mt.lunch),
    ("Dinner", mt.dinner)]
  let nonEmpty := meal_types.filter (fun p => !p.2.isEmpty)
  let processed_meals := nonEmpty.map (fun p => bucketEntry fetch p.1 p.2)
  let daily := nonEmpty.foldl (fun t p =>
      let b := bucketTotals fetch p.2
      (t.1 + b.1, t.2.1 + b.2.1, t.2.2.1 + b.2.2.1, t.2.2.2 + b.2.2.2))
    (0, 0, 0, 0)
  { meals := processed_meals
    nutrients := round4 daily }

/-- The HTTP response to the planner request: the status code and the parsed
"meals" field of the JSON body (`none` when the key is absent). -/
structure PlannerResponse where
  status : ℕ
  meals : Option (List Meal)

/-- Embeds `generate_meal_plan` from meal_planner.py, given the response the
planner API returned. `raise_for_status` raises HTTPError exactly for the
4xx/5xx range, mapped by the except-chain to the four ValueError messages
(the generic one's trailing `str(e)` text is elided); otherwise an absent or
empty "meals" list raises the empty-plan ValueError, wrapped by the generic
handler, and a non-empty list is processed. Transport-level errors with no
response at all are outside the model. -/
def generate_meal_plan (fetch : ℤ → Option Nutrition4)
    (resp : PlannerResponse) : Except String Plan :=
  if 400 ≤ resp.status ∧ resp.status < 600 then
    if resp.status = 402 then
      .error "API quota exceeded. Please try again later or upgrade your plan."
    else if resp.status = 401 then
      .error "Invalid API key. Please check your Spoonacular API key."
    else if resp.status = 429 then
      .error "API rate limit exceeded. Please wait a few minutes before trying again."
    else
      .error ("API request failed with status code " ++ toString resp.status)
  else
    match resp.meals with
    | some (m :: rest) => .ok (process_meal_plan fetch (m :: rest))
    | _ => .error "Error generating meal plan: Could not generate a meal plan with the given constraints"

/-- The non-nutrition fields of a processed bucket entry. -/
def stripNutrition (e : BucketEntry) :
    String × String × ℚ × ℚ × List String × List Meal :=
  (e.title, e.image, e.readyInMinutes, e.servings, e.sourceUrl, e.meals)

/-- A concrete meal with an embedded nutrition record, for witnesses. -/
def exMeal : Meal :=
  ⟨101, "img.jpg", 25, 2, "https://example.org/r101", some ⟨520.5, 30, 20, 48⟩⟩

/-- A concrete meal without embedded nutrition, for witnesses. -/
def exMealNoNut : Meal := ⟨102, "img2.jpg", 15, 1, "", none⟩

/-- Helper: `round2 x` when `x` is an exact multiple of 1/100. -/
theorem round2_of_mul_hundred_int (x : ℚ) (z : ℤ) (hx : x * 100 = (z : ℚ)) :
    round2 x = (z : ℚ) / 100 := by
  simp only [round2, roundHalfEven, hx, Int.floor_intCast]
  norm_num

/-- Helper: direct evaluation of the spec's worked example. -/
theorem calc_example_value :
    calculate_daily_calories (.float 70) (.float 170) (.int 30)
        (.str "male") (.str "sedentary") = .ok 1941 := by
  have h1 : strLower "male" = "male" := rfl
  have h2 : ACTIVITY_MULTIPLIERS.lookup (strLower "sedentary") = some 1.2 := rfl
  simp only [calculate_daily_calories, validate_inputs, PyVal.isNumber,
    PyVal.isInt, PyVal.isStr, PyVal.toQ, PyVal.toStr, h1, h2]
  norm_num
  rw [round2_of_mul_hundred_int 1941 194100 (by norm_num)]
  norm_num

/-- C1: for every in-range weight, height and integer age, a valid gender and
a valid activity level (both case-insensitive), `calculate_daily_calories`
returns the Mifflin-St Jeor BMR times the table multiplier, rounded to two
decimal places. -/
theorem calculate_daily_calories_valid_formula
    (w h : ℚ) (a : ℤ) (g act : String) (m : ℚ)
    (hw1 : 20 ≤ w) (hw2 : w ≤ 300)
    (hh1 : 100 ≤ h) (hh2 : h ≤ 250)
    (ha1 : 15 ≤ (a : ℚ)) (ha2 : (a : ℚ) ≤ 100)
    (hg : strLower g = "male" ∨ strLower g = "female")
    (hact : ACTIVITY_MULTIPLIERS.lookup (strLower act) = some m) :
    calculate_daily_calories (.float w) (.float h) (.int a) (.str g) (.str act) =
      .ok (round2 ((if strLower g = "male" then
          10 * w + 6.25 * h - 5 * (a : ℚ) + 5
        else
          10 * w + 6.25 * h - 5 * (a : ℚ) - 161) * m)) := by
  have hmem : strLower g ∈ ["male", "female"] := by
    rcases hg with hg | hg <;> simp [hg]
  simp only [calculate_daily_calories, validate_inputs, PyVal.isNumber,
    PyVal.isInt, PyVal.isStr, PyVal.toQ, PyVal.toStr, hact]
  simp [hw1, hw2, hh1, hh2, ha1, ha2, hmem, hact]

/-- C1 witness: male, 70 kg, 170 cm, 30 y, sedentary gives
BMR 1617.5 × 1.2 = 1941.0 kcal. -/
theorem calculate_daily_calories_valid_formula_witness :
    calculate_daily_calories (.float 70) (.float 170) (.int 30)
        (.str "male") (.str "sedentary") = .ok 1941 := by
  have h := calculate_daily_calories_valid_formula 70 170 30 "male" "sedentary"
    1.2 (by norm_num) (by norm_num) (by norm_num) (by norm_num) (by norm_num)
    (by norm_num) (Or.inl rfl) rfl
  rw [h]
  have harg : ((if strLower "male" = "male" then
      10 * (70:ℚ) + 6.25 * 170 - 5 * ((30:ℤ) : ℚ) + 5
    else
      10 * (70:ℚ) + 6.25 * 170 - 5 * ((30:ℤ) : ℚ) - 161) * 1.2) = 1941 := by
    rw [show strLower "male" = "male" from rfl]
    norm_num
  rw [harg, round2_of_mul_hundred_int 1941 194100 (by norm_num)]
  norm_num

/-- C1 counterexample: on the spec's own example (male, 70 kg, 170 cm, 30 y,
sedentary) the code returns 1941.0 kcal, not the claimed 2008.20: the spec
mis-evaluates its own formula (10·70 + 6.25·170 − 5·30 + 5 = 1617.5, not
1673.5). -/
theorem calculate_daily_calories_example_not_2008 :
    calculate_daily_calories (.float 70) (.float 170) (.int 30)
        (.str "male") (.str "sedentary") ≠ .ok 2008.2 ∧
    calculate_daily_calories (.float 70) (.float 170) (.int 30)
        (.str "male") (.str "sedentary") = .ok 1941 := by
  refine ⟨?_, calc_example_value⟩
  rw [calc_example_value]
  intro hcontra
  have : (1941 : ℚ) = 2008.2 := by injection hcontra
  norm_num at this

/-- Helper: integer range bounds transfer along the cast to the rationals. -/
theorem int_range_cast (a : ℤ) :
    ((15:ℤ) ≤ a ∧ a ≤ 100) ↔ (15 ≤ (a:ℚ) ∧ (a:ℚ) ≤ 100) := by
  constructor <;> intro hh <;>
    exact ⟨by exact_mod_cast hh.1, by exact_mod_cast hh.2⟩

/-- Helper: on well-typed inputs, `validate_inputs` reports exactly the first
failing field's message in the order weight, height, age, gender,
activity_level. -/
theorem validate_inputs_spec (w h : ℚ) (a : ℤ) (g act : String) :
    validate_inputs (.float w) (.float h) (.int a) (.str g) (.str act) =
      match specFirstError w h a g act with
      | some msg => (false, msg)
      | none => (true, "") := by
  by_cases h1 : 20 ≤ w ∧ w ≤ 300 <;>
  by_cases h2 : 100 ≤ h ∧ h ≤ 250 <;>
  by_cases h3 : 15 ≤ (a:ℚ) ∧ (a:ℚ) ≤ 100 <;>
  by_cases h4 : strLower g ∈ ["male", "female"] <;>
  by_cases h5 : (ACTIVITY_MULTIPLIERS.lookup (strLower act)).isSome = true <;>
  simp [validate_inputs, specFirstError, PyVal.isNumber, PyVal.isInt,
    PyVal.isStr, PyVal.toQ, PyVal.toStr, h1, h2, h3, h4, h5, int_range_cast a]

/-- C6 (amended): on well-typed inputs (numeric weight and height, integer
age, string gender and activity level), any out-of-range or unrecognized
value makes `calculate_daily_calories` raise ValueError with the message of
the first failing field, in the order weight, height, age, gender,
activity_level; no aggregation of several errors. -/
theorem calculate_daily_calories_first_invalid_field
    (w h : ℚ) (a : ℤ) (g act : String) (msg : String)
    (hmsg : specFirstError w h a g act = some msg) :
    calculate_daily_calories (.float w) (.float h) (.int a) (.str g) (.str act) =
      .error (.valueError msg) := by
  have hv := validate_inputs_spec w h a g act
  rw [hmsg] at hv
  simp only [calculate_daily_calories, PyVal.isNumber, PyVal.isInt, PyVal.isStr]
  simp [hv]

/-- C6 witness: weight 19 kg is rejected with the weight message. -/
theorem calculate_daily_calories_first_invalid_field_witness :
    calculate_daily_calories (.float 19) (.float 170) (.int 30)
        (.str "male") (.str "sedentary") =
      .error (.valueError "Weight must be a number between 20 and 300 kg") :=
  calculate_daily_calories_first_invalid_field 19 170 30 "male" "sedentary"
    "Weight must be a number between 20 and 300 kg" (by decide)

/-- C6 counterexample: a non-integer age such as 101.5 is rejected by the
type check with TypeError, not with the claimed ValueError/InvalidInput. -/
theorem age_non_integer_gives_type_error :
    calculate_daily_calories (.float 70) (.float 170) (.float 101.5)
        (.str "male") (.str "sedentary") =
      .error (.typeError "Age must be an integer") := by
  simp [calculate_daily_calories, PyVal.isNumber, PyVal.isInt]

/-- C10: whenever weight or height is not a number, age is not an integer, or
gender or activity level is not a string, `calculate_daily_calories` raises
TypeError (with the message of the first failing type check) before any range
validation runs. -/
theorem calculate_daily_calories_type_errors
    (weight height age gender activity_level : PyVal)
    (h : ¬(weight.isNumber = true ∧ height.isNumber = true ∧ age.isInt = true ∧
        gender.isStr = true ∧ activity_level.isStr = true)) :
    calculate_daily_calories weight height age gender activity_level =
      .error (.typeError
        (if ¬(weight.isNumber = true ∧ height.isNumber = true) then
          "Weight and height must be numbers"
        else if ¬(age.isInt = true) then
          "Age must be an integer"
        else
          "Gender and activity_level must be strings")) := by
  by_cases h1 : weight.isNumber = true ∧ height.isNumber = true
  · by_cases h2 : age.isInt = true
    · by_cases h3 : gender.isStr = true ∧ activity_level.isStr = true
      · exact absurd ⟨h1.1, h1.2, h2, h3.1, h3.2⟩ h
      · simp [calculate_daily_calories, h1, h2, h3]
    · simp [calculate_daily_calories, h1, h2]
  · simp [calculate_daily_calories, h1]

/-- C10 witness: a string weight raises the weight/height TypeError even
though every other argument is valid. -/
theorem calculate_daily_calories_type_errors_witness :
    calculate_daily_calories (.str "abc") (.float 170) (.int 30)
        (.str "male") (.str "sedentary") =
      .error (.typeError "Weight and height must be numbers") := by
  have h := calculate_daily_calories_type_errors (.str "abc") (.float 170)
    (.int 30) (.str "male") (.str "sedentary") (by decide)
  simpa using h

/-- C8: `convert_to_grams` multiplies by the fixed constant for each of the
four recognized units (g=1.0, oz=28.35, ml=1.0, fl_oz=29.57) and raises the
unsupported-unit ValueError for any other unit token; in particular
100 oz = 2835 g, 1 fl_oz = 29.57 g, and "lb" is rejected. -/
theorem convert_to_grams_spec (amount : ℚ) :
    convert_to_grams amount "g" = .ok (amount * 1) ∧
    convert_to_grams amount "oz" = .ok (amount * 28.35) ∧
    convert_to_grams amount "ml" = .ok (amount * 1) ∧
    convert_to_grams amount "fl_oz" = .ok (amount * 29.57) ∧
    (∀ u : String, u ∉ ["g", "oz", "ml", "fl_oz"] →
      convert_to_grams amount u =
        .error ("Unsupported unit: " ++ u ++ ". Supported units are: g, oz, ml, fl_oz")) ∧
    convert_to_grams 100 "oz" = .ok 2835 ∧
    convert_to_grams 1 "fl_oz" = .ok 29.57 ∧
    convert_to_grams 5 "lb" =
      .error "Unsupported unit: lb. Supported units are: g, oz, ml, fl_oz" := by
  refine ⟨?_, ?_, ?_, ?_, ?_, ?_, ?_, ?_⟩
  · simp [convert_to_grams, UNIT_CONVERSIONS, List.lookup] <;> norm_num
  · simp [convert_to_grams, UNIT_CONVERSIONS, List.lookup] <;> norm_num
  · simp [convert_to_grams, UNIT_CONVERSIONS, List.lookup] <;> norm_num
  · simp [convert_to_grams, UNIT_CONVERSIONS, List.lookup] <;> norm_num
  · intro u hu
    simp only [List.mem_cons, List.not_mem_nil, or_false, not_or] at hu
    obtain ⟨hg, ho, hm, hf⟩ := hu
    have hg' : (u == "g") = false := by simp [hg]
    have ho' : (u == "oz") = false := by simp [ho]
    have hm' : (u == "ml") = false := by simp [hm]
    have hf' : (u == "fl_oz") = false := by simp [hf]
    simp [convert_to_grams, UNIT_CONVERSIONS, List.lookup, hg', ho', hm', hf']
  · simp [convert_to_grams, UNIT_CONVERSIONS, List.lookup] <;> norm_num
  · simp [convert_to_grams, UNIT_CONVERSIONS, List.lookup] <;> norm_num
  · simp [convert_to_grams, UNIT_CONVERSIONS, List.lookup] <;> norm_num

/-- C8 witness: 2 oz is 56.7 g and 2 lb is rejected with the
unsupported-unit message. -/
theorem convert_to_grams_spec_witness :
    convert_to_grams 2 "oz" = .ok 56.7 ∧
    convert_to_grams 2 "lb" =
      .error ("Unsupported unit: " ++ "lb" ++ ". Supported units are: g, oz, ml, fl_oz") := by
  refine ⟨?_, (convert_to_grams_spec 2).2.2.2.2.1 "lb" (by decide)⟩
  have h := (convert_to_grams_spec 2).2.1
  rw [h]
  norm_num

/-- C5: for every reported per-100g amount A and every positive gram
quantity, scaling to the requested quantity (`adjusted_amount`, from
`get_nutrition_data`) and rescaling back (`amount_per_100g`, from
`create_nutrient_tables`) round-trips exactly to A. -/
theorem nutrient_amount_round_trip (A g : ℚ) (hg : 0 < g) :
    amount_per_100g (adjusted_amount A g) g = .ok A := by
  have hne : g ≠ 0 := ne_of_gt hg
  simp only [amount_per_100g, adjusted_amount, pyDiv, hne, if_neg hne,
    if_false]
  congr 1
  field_simp

/-- C5 witness: 7 per 100 g at 200 g round-trips to 7. -/
theorem nutrient_amount_round_trip_witness :
    (0:ℚ) < 200 ∧ amount_per_100g (adjusted_amount 7 200) 200 = .ok 7 :=
  ⟨by norm_num, nutrient_amount_round_trip 7 200 (by norm_num)⟩

/-- C4: contrary to the claim, the per-100g rescaling in
`create_nutrient_tables` is not guarded: with grams = 0 and a raw record
containing one recognized nutrient (Energy, id 1008), the amount-per-100g
column evaluates `amount * 100 / 0` and the call raises ZeroDivisionError. -/
theorem create_nutrient_tables_div_zero :
    create_nutrient_tables [RawNutrient.mk (some 1008) "Energy" 100 "kcal"] 0 =
      .error "float division by zero" := by
  simp [create_nutrient_tables, get_nutrition_data, dictInsert,
    adjusted_amount, MAIN_NUTRIENTS, amount_per_100g, pyDiv,
    NUTRIENT_ID_VALUES, List.lookup, List.foldlM, Except.bind]

/-- Helper: the distribution loop sends the meal with enumeration index i to
the bucket numbered i mod 3, appending in list order, for any starting index
and accumulator. -/
theorem distributeAux_spec (ms : List Meal) : ∀ (i : ℕ) (mt : MealTypes),
    distributeAux i ms mt =
      ⟨mt.breakfast ++
          ((ms.enumFrom i).filter (fun p => p.1 % 3 == 0)).map Prod.snd,
        mt.lunch ++
          ((ms.enumFrom i).filter (fun p => p.1 % 3 == 1)).map Prod.snd,
        mt.dinner ++
          ((ms.enumFrom i).filter (fun p => p.1 % 3 == 2)).map Prod.snd⟩ := by
  induction ms with
  | nil => intro i mt; simp [distributeAux, List.enumFrom]
  | cons m rest ih =>
    intro i mt
    have h3 : i % 3 = 0 ∨ i % 3 = 1 ∨ i % 3 = 2 := by omega
    rcases h3 with h | h | h <;>
      simp [distributeAux, ih, List.enumFrom, h]

/-- C2: `_process_meal_plan` assigns the meal at list index i to the bucket
labelled by [Breakfast, Lunch, Dinner] at position i mod 3, in list order;
with 3 meals each bucket holds exactly one meal, and with 6 meals the buckets
hold the meals at indices {0,3}, {1,4} and {2,5} respectively. -/
theorem meals_distributed_round_robin (meals : List Meal)
    (m0 m1 m2 m3 m4 m5 : Meal) :
    (distributeMeals meals).breakfast =
        ((meals.enum.filter (fun p => p.1 % 3 == 0)).map Prod.snd) ∧
    (distributeMeals meals).lunch =
        ((meals.enum.filter (fun p => p.1 % 3 == 1)).map Prod.snd) ∧
    (distributeMeals meals).dinner =
        ((meals.enum.filter (fun p => p.1 % 3 == 2)).map Prod.snd) ∧
    distributeMeals [m0, m1, m2] = ⟨[m0], [m1], [m2]⟩ ∧
    distributeMeals [m0, m1, m2, m3, m4, m5] =
      ⟨[m0, m3], [m1, m4], [m2, m5]⟩ := by
  refine ⟨?_, ?_, ?_, ?_, ?_⟩
  · rw [distributeMeals, distributeAux_spec]
    simp [List.enum]
  · rw [distributeMeals, distributeAux_spec]
    simp [List.enum]
  · rw [distributeMeals, distributeAux_spec]
    simp [List.enum]
  · rfl
  · rfl

/-- Helper: the daily-total fold adds up the bucket totals componentwise. -/
theorem foldl_daily_totals (fetch : ℤ → Option Nutrition4)
    (L : List (String × List Meal)) : ∀ t : ℚ × ℚ × ℚ × ℚ,
    L.foldl (fun t p =>
        let b := bucketTotals fetch p.2
        (t.1 + b.1, t.2.1 + b.2.1, t.2.2.1 + b.2.2.1, t.2.2.2 + b.2.2.2)) t =
      (t.1 + (L.map (fun p => (bucketTotals fetch p.2).1)).sum,
       t.2.1 + (L.map (fun p => (bucketTotals fetch p.2).2.1)).sum,
       t.2.2.1 + (L.map (fun p => (bucketTotals fetch p.2).2.2.1)).sum,
       t.2.2.2 + (L.map (fun p => (bucketTotals fetch p.2).2.2.2)).sum) := by
  induction L with
  | nil => intro t; simp
  | cons p rest ih =>
    intro t
    simp only [List.foldl_cons, List.map_cons, List.sum_cons, ih]
    simp only [Prod.mk.injEq]
    refine ⟨by ring, by ring, by ring, by ring⟩

/-- C3: each day-level nutrient figure reported by `_process_meal_plan` is
the rounding (to 2 decimals) of the sum of the raw per-bucket totals over the
non-empty buckets, while each bucket entry reports its own raw total rounded
independently to 2 decimals. -/
theorem daily_totals_sum_of_buckets (fetch : ℤ → Option Nutrition4)
    (meals : List Meal) :
    (process_meal_plan fetch meals).nutrients =
      round4
        (((process_meal_plan fetch meals).meals.map
            (fun e => (bucketTotals fetch e.meals).1)).sum,
         ((process_meal_plan fetch meals).meals.map
            (fun e => (bucketTotals fetch e.meals).2.1)).sum,
         ((process_meal_plan fetch meals).meals.map
            (fun e => (bucketTotals fetch e.meals).2.2.1)).sum,
         ((process_meal_plan fetch meals).meals.map
            (fun e => (bucketTotals fetch e.meals).2.2.2)).sum) ∧
    ∀ e ∈ (process_meal_plan fetch meals).meals,
      e.nutrition = round4 (bucketTotals fetch e.meals) := by
  constructor
  · simp only [process_meal_plan, foldl_daily_totals, List.map_map]
    simp [Function.comp_def, bucketEntry]
  · intro e he
    simp only [process_meal_plan, List.mem_map] at he
    obtain ⟨p, hp, rfl⟩ := he
    rfl

/-- C3 witness: with one meal (embedded nutrition 520.5/30/20/48) the day
totals are the rounded sums over the single non-empty bucket, whose entry
carries its own rounded total. -/
theorem daily_totals_sum_of_buckets_witness :
    (process_meal_plan (fun _ => none) [exMeal]).nutrients =
      round4
        (((process_meal_plan (fun _ => none) [exMeal]).meals.map
            (fun e => (bucketTotals (fun _ => none) e.meals).1)).sum,
         ((process_meal_plan (fun _ => none) [exMeal]).meals.map
            (fun e => (bucketTotals (fun _ => none) e.meals).2.1)).sum,
         ((process_meal_plan (fun _ => none) [exMeal]).meals.map
            (fun e => (bucketTotals (fun _ => none) e.meals).2.2.1)).sum,
         ((process_meal_plan (fun _ => none) [exMeal]).meals.map
            (fun e => (bucketTotals (fun _ => none) e.meals).2.2.2)).sum) ∧
    (bucketEntry (fun _ => none) "Breakfast" [exMeal]).nutrition =
      round4 (bucketTotals (fun _ => none)
        (bucketEntry (fun _ => none) "Breakfast" [exMeal]).meals) :=
  ⟨(daily_totals_sum_of_buckets (fun _ => none) [exMeal]).1,
   (daily_totals_sum_of_buckets (fun _ => none) [exMeal]).2
     (bucketEntry (fun _ => none) "Breakfast" [exMeal])
     (List.mem_cons_self _ _)⟩

/-- C7 (amended): statuses in the 4xx/5xx range map deterministically: 402 to
the quota message, 401 to the credentials message, 429 to the rate-limit
message, and every other 4xx/5xx to the generic failure message carrying the
status code. (Statuses outside 400-599, including 3xx, do not raise here.) -/
theorem planner_http_error_mapping (fetch : ℤ → Option Nutrition4)
    (resp : PlannerResponse) (h4 : 400 ≤ resp.status)
    (h6 : resp.status < 600) :
    generate_meal_plan fetch resp = .error (
      if resp.status = 402 then
        "API quota exceeded. Please try again later or upgrade your plan."
      else if resp.status = 401 then
        "Invalid API key. Please check your Spoonacular API key."
      else if resp.status = 429 then
        "API rate limit exceeded. Please wait a few minutes before trying again."
      else
        "API request failed with status code " ++ toString resp.status) := by
  have hc : 400 ≤ resp.status ∧ resp.status < 600 := ⟨h4, h6⟩
  simp only [generate_meal_plan, if_pos hc]
  by_cases e1 : resp.status = 402 <;> by_cases e2 : resp.status = 401 <;>
    by_cases e3 : resp.status = 429 <;> simp [e1, e2, e3]

/-- C7 witness: status 402 yields the quota-exceeded error. -/
theorem planner_http_error_mapping_witness :
    generate_meal_plan (fun _ => none) ⟨402, none⟩ =
      .error "API quota exceeded. Please try again later or upgrade your plan." := by
  have h := planner_http_error_mapping (fun _ => none) ⟨402, none⟩
    (by decide) (by decide)
  simpa using h

/-- C7 counterexample: status 304 is not 2xx, yet the client raises nothing
for it (requests.raise_for_status only raises for 4xx/5xx): with a non-empty
meal list the call succeeds instead of failing with a generic
status-carrying error. -/
theorem planner_304_with_meals_succeeds :
    generate_meal_plan (fun _ => none) ⟨304, some [exMeal]⟩ =
      .ok (process_meal_plan (fun _ => none) [exMeal]) := rfl

/-- Helper: the bucket accumulation fold equals the componentwise sums of the
per-meal contributions, for any starting accumulator. -/
theorem bucketTotals_aux (fetch : ℤ → Option Nutrition4) (L : List Meal) :
    ∀ t : ℚ × ℚ × ℚ × ℚ,
    L.foldl (fun t meal =>
      match meal.nutrition with
      | none =>
        match fetch meal.id with
        | some nd =>
          (t.1 + nd.calories, t.2.1 + nd.protein, t.2.2.1 + nd.fat,
           t.2.2.2 + nd.carbs)
        | none => t
      | some n =>
        (t.1 + n.calories, t.2.1 + n.protein, t.2.2.1 + n.fat,
         t.2.2.2 + n.carbs)) t =
      (t.1 + (L.map (fun m => (mealContribution fetch m).1)).sum,
       t.2.1 + (L.map (fun m => (mealContribution fetch m).2.1)).sum,
       t.2.2.1 + (L.map (fun m => (mealContribution fetch m).2.2.1)).sum,
       t.2.2.2 + (L.map (fun m => (mealContribution fetch m).2.2.2)).sum) := by
  induction L with
  | nil => intro t; simp
  | cons m rest ih =>
    intro t
    simp only [List.foldl_cons, List.map_cons, List.sum_cons, ih]
    cases hm : m.nutrition with
    | some n =>
      simp only [mealContribution, hm, Prod.mk.injEq]
      refine ⟨by ring, by ring, by ring, by ring⟩
    | none =>
      cases hf : fetch m.id with
      | some nd =>
        simp only [mealContribution, hm, hf, Prod.mk.injEq]
        refine ⟨by ring, by ring, by ring, by ring⟩
      | none =>
        simp only [mealContribution, hm, hf, Prod.mk.injEq]
        refine ⟨by ring, by ring, by ring, by ring⟩

/-- Helper: the title field of a processed bucket entry. -/
theorem bucketEntry_title (f : ℤ → Option Nutrition4) (t : String)
    (ms : List Meal) : (bucketEntry f t ms).title = t := rfl

/-- Helper: the image field of a processed bucket entry. -/
theorem bucketEntry_image (f : ℤ → Option Nutrition4) (t : String)
    (ms : List Meal) : (bucketEntry f t ms).image =
      (match ms with | m :: _ => IMAGE_BASE_URL ++ m.image | [] => "") := rfl

/-- Helper: the prep-time field of a processed bucket entry. -/
theorem bucketEntry_readyInMinutes (f : ℤ → Option Nutrition4) (t : String)
    (ms : List Meal) :
    (bucketEntry f t ms).readyInMinutes = (ms.map Meal.readyInMinutes).sum := rfl

/-- Helper: the servings field of a processed bucket entry. -/
theorem bucketEntry_servings (f : ℤ → Option Nutrition4) (t : String)
    (ms : List Meal) :
    (bucketEntry f t ms).servings = (ms.map Meal.servings).sum := rfl

/-- Helper: the source-URL field of a processed bucket entry. -/
theorem bucketEntry_sourceUrl (f : ℤ → Option Nutrition4) (t : String)
    (ms : List Meal) : (bucketEntry f t ms).sourceUrl =
      (ms.filter (fun m => m.sourceUrl != "")).map Meal.sourceUrl := rfl

/-- Helper: the member-list field of a processed bucket entry. -/
theorem bucketEntry_meals (f : ℤ → Option Nutrition4) (t : String)
    (ms : List Meal) : (bucketEntry f t ms).meals = ms := rfl

/-- Helper: the non-nutrition fields of a bucket entry do not depend on the
fallback oracle. -/
theorem stripNutrition_bucketEntry (f g : ℤ → Option Nutrition4) (t : String)
    (ms : List Meal) :
    stripNutrition (bucketEntry f t ms) = stripNutrition (bucketEntry g t ms) := by
  simp only [stripNutrition, bucketEntry_title, bucketEntry_image,
    bucketEntry_readyInMinutes, bucketEntry_servings, bucketEntry_sourceUrl,
    bucketEntry_meals]

/-- C9: a failed nutrition fallback for a meal without an embedded nutrition
record never fails the plan: with a successful response and non-empty meal
list, `generate_meal_plan` succeeds whatever the fallback oracle does; the
non-nutrition fields of every bucket entry do not depend on the oracle at
all; and each bucket's totals are the sums of the per-meal contributions, a
meal whose fallback fails contributing exactly zero while the other meals'
contributions are unaffected. -/
theorem silent_fallback_skip (fetch g : ℤ → Option Nutrition4)
    (meals type_meals : List Meal) (status : ℕ)
    (hs : ¬(400 ≤ status ∧ status < 600)) (hne : meals ≠ []) :
    generate_meal_plan fetch ⟨status, some meals⟩ =
      .ok (process_meal_plan fetch meals) ∧
    (process_meal_plan fetch meals).meals.map stripNutrition =
      (process_meal_plan g meals).meals.map stripNutrition ∧
    bucketTotals fetch type_meals =
      ((type_meals.map (fun m => (mealContribution fetch m).1)).sum,
       (type_meals.map (fun m => (mealContribution fetch m).2.1)).sum,
       (type_meals.map (fun m => (mealContribution fetch m).2.2.1)).sum,
       (type_meals.map (fun m => (mealContribution fetch m).2.2.2)).sum) := by
  refine ⟨?_, ?_, ?_⟩
  · simp only [generate_meal_plan, if_neg hs]
    cases meals with
    | nil => exact absurd rfl hne
    | cons m rest => rfl
  · simp only [process_meal_plan, List.map_map]
    exact List.map_congr_left
      (fun p _ => stripNutrition_bucketEntry fetch g p.1 p.2)
  · have h := bucketTotals_aux fetch type_meals (0, 0, 0, 0)
    simpa [bucketTotals] using h

/-- C9 witness: one meal with a failing fallback next to one meal with
embedded nutrition: the plan is produced, the non-nutrition fields match
those under a succeeding oracle, and the failing meal contributes zero. -/
theorem silent_fallback_skip_witness :
    generate_meal_plan (fun _ => none) ⟨200, some [exMealNoNut, exMeal]⟩ =
      .ok (process_meal_plan (fun _ => none) [exMealNoNut, exMeal]) ∧
    (process_meal_plan (fun _ => none) [exMealNoNut, exMeal]).meals.map
        stripNutrition =
      (process_meal_plan (fun _ => some ⟨1, 2, 3, 4⟩)
          [exMealNoNut, exMeal]).meals.map stripNutrition ∧
    bucketTotals (fun _ => none) [exMealNoNut, exMeal] =
      (([exMealNoNut, exMeal].map
          (fun m => (mealContribution (fun _ => none) m).1)).sum,
       ([exMealNoNut, exMeal].map
          (fun m => (mealContribution (fun _ => none) m).2.1)).sum,
       ([exMealNoNut, exMeal].map
          (fun m => (mealContribution (fun _ => none) m).2.2.1)).sum,
       ([exMealNoNut, exMeal].map
          (fun m => (mealContribution (fun _ => none) m).2.2.2)).sum) :=
  silent_fallback_skip (fun _ => none) (fun _ => some ⟨1, 2, 3, 4⟩)
    [exMealNoNut, exMeal] [exMealNoNut, exMeal] 200 (by decide)
    (List.cons_ne_nil _ _)
